import Mathlib

/-!
Verification of the concurrent multi-subject subscription engine of
MiniToolStreamConnector (minitoolstream_connector/usecase/subscriber/subscriber.go),
as a shallow embedding.

Modelling choices:
* Go streams (`NotificationStream.Recv`, `MessageStream.Recv`) are modelled as
  finite lists of `Recv` outcomes: a successful item, end-of-stream (io.EOF),
  or a non-EOF error.  The loops of the source stop at the first terminal
  outcome, so anything after it in the list is never observed.
* The `EgressClient` interface is an environment record: `subscribe` maps a
  subscription config to a notification stream (or an error), `fetch` maps the
  index of the worker's fetch call and a config to a message stream (or an
  error); the index accounts for the stateful server answering successive
  fetch calls differently.
* Side effects (goroutine spawns, client calls, handler invocations, log
  lines) are recorded as an explicit event trace; each event carries the
  identity of the worker that emitted it.
* Handlers (`domain.MessageHandler.Handle`) are functions returning an
  optional error message.
* `context` cancellation and `sync.WaitGroup` joins are modelled as state:
  the `cancelled` flag, the `wgCount` counter and the `workers` list record
  what `Stop`/`Start` do to them; `client.Close()` calls are counted by
  `closeCount`.
* Concurrency across workers is modelled by the `Interleave` relation over
  event traces: a system trace of two workers is any interleaving of the two
  workers' sequential traces.
-/

namespace MTSC

/-- `domain.Message` (pkg/minitoolstream_connector/subscriber/domain/entities.go):
subject, sequence, payload bytes, headers, timestamp. -/
structure Message where
  subject : String
  sequence : Nat
  data : List Nat
  headers : List (String × String)
  timestamp : Nat
deriving Repr, DecidableEq

/-- `domain.Notification`: a `(subject, sequence)` pair, no payload. -/
structure Notification where
  subject : String
  sequence : Nat
deriving Repr, DecidableEq

/-- `domain.SubscriptionConfig`: subject, durable name, optional start
sequence, batch size (Go `int32`; only compared against 0, never operated on,
so a plain integer is faithful). -/
structure SubscriptionConfig where
  subject : String
  durableName : String
  startSequence : Option Nat
  batchSize : Int
deriving Repr, DecidableEq

/-- One outcome of a stream's `Recv()`: an item, `io.EOF`, or another error. -/
inductive Recv (α : Type) where
  | item (a : α)
  | eof
  | err (e : String)
deriving Repr, DecidableEq

/-- `domain.MessageHandler.Handle`: `none` is a nil error, `some e` an error. -/
def Handler : Type := Message → Option String

/-- `domain.EgressClient` as the environment the subscriber runs against. -/
structure EgressClient where
  subscribe : SubscriptionConfig → Except String (List (Recv Notification))
  fetch : Nat → SubscriptionConfig → Except String (List (Recv Message))

/-- `usecase.Config` (subscriber.go lines 14-19); `client` is an optional to
model a nil interface field.  The logger is not carried: log lines are
recorded in the event trace instead. -/
structure Config where
  client : Option EgressClient
  durableName : String
  batchSize : Int

/-- `usecase.MultiSubject` (subscriber.go lines 34-44).  `handlers` is the
registry map as an association list with unique keys; `cancelled` is the state
of the shared cancellable context; `workers` lists the subjects of the
goroutines spawned so far (each paired with one wait-group `Add`, counted by
`wgCount`); `closeCount` counts the `client.Close()` calls performed. -/
structure MultiSubject where
  client : EgressClient
  durableName : String
  batchSize : Int
  handlers : List (String × Handler)
  cancelled : Bool
  workers : List String
  wgCount : Nat
  closeCount : Nat

/-- `usecase.New` (subscriber.go lines 47-77): nil checks, then a batch size
of 10 is substituted whenever the configured one is not positive. -/
def New (config : Option Config) : Except String MultiSubject :=
  match config with
  | none => Except.error ("config cannot be nil")
  | some cfg =>
    match cfg.client with
    | none => Except.error ("client cannot be nil")
    | some client =>
      let batchSize := if cfg.batchSize ≤ 0 then 10 else cfg.batchSize
      Except.ok
        { client := client
          durableName := cfg.durableName
          batchSize := batchSize
          handlers := []
          cancelled := false
          workers := []
          wgCount := 0
          closeCount := 0 }

/-- Go map assignment `s.handlers[subject] = handler`: replace the binding
when the key is present, append it otherwise. -/
def mapInsert : List (String × Handler) → String → Handler → List (String × Handler)
  | [], subject, handler => [(subject, handler)]
  | (k, v) :: rest, subject, handler =>
    if k = subject then (subject, handler) :: rest
    else (k, v) :: mapInsert rest subject handler

/-- Go map read `s.handlers[subject]`. -/
def mapLookup : List (String × Handler) → String → Option Handler
  | [], _ => none
  | (k, v) :: rest, subject =>
    if k = subject then some v else mapLookup rest subject

/-- `MultiSubject.RegisterHandler` (subscriber.go lines 80-85). -/
def RegisterHandler (s : MultiSubject) (subject : String) (handler : Handler) :
    MultiSubject :=
  { s with handlers := mapInsert s.handlers subject handler }

/-- `MultiSubject.RegisterHandlers` (subscriber.go lines 88-95). -/
def RegisterHandlers (s : MultiSubject) (hs : List (String × Handler)) :
    MultiSubject :=
  hs.foldl (fun acc p => RegisterHandler acc p.1 p.2) s

/-- Observable actions of the subscriber; the first field of every
constructor is the subject of the worker goroutine that emitted the event
(the spawn events are emitted by `Start` on the worker's behalf). -/
inductive Event where
  | spawn (worker : String)
  | subscribeCall (worker : String) (config : SubscriptionConfig)
  | subscribeFailLog (worker : String)
  | fetchCall (worker : String) (config : SubscriptionConfig)
  | handleCall (worker : String) (m : Message)
  | handlerErrLog (worker : String) (sequence : Nat)
  | processedLog (worker : String) (count : Nat)
  | procErrLog (worker : String) (e : String)
deriving Repr, DecidableEq

/-- The worker a trace event belongs to. -/
def Event.worker : Event → String
  | spawn w => w
  | subscribeCall w _ => w
  | subscribeFailLog w => w
  | fetchCall w _ => w
  | handleCall w _ => w
  | handlerErrLog w _ => w
  | processedLog w _ => w
  | procErrLog w _ => w

/-- The messages handed to the handler of `worker`, in trace order. -/
def handledMessages (worker : String) (evs : List Event) : List Message :=
  evs.filterMap fun e =>
    match e with
    | Event.handleCall w m => if w = worker then some m else none
    | _ => none

/-- The sub-trace of events emitted by `worker`. -/
def eventsOf (worker : String) (evs : List Event) : List Event :=
  evs.filter fun e => e.worker == worker

/-- The `SubscriptionConfig` literal built in `subscribeToSubject`
(subscriber.go lines 123-127): the worker's subject, the subscriber's durable
name and batch size, `StartSequence` left nil. -/
def subConfig (s : MultiSubject) (subject : String) : SubscriptionConfig :=
  { subject := subject
    durableName := s.durableName
    startSequence := none
    batchSize := s.batchSize }

/-- The `SubscriptionConfig` literal built in `processNotification`
(subscriber.go lines 189-193): the notification's subject, the subscriber's
durable name and batch size, `StartSequence` left nil. -/
def fetchConfig (s : MultiSubject) (n : Notification) : SubscriptionConfig :=
  { subject := n.subject
    durableName := s.durableName
    startSequence := none
    batchSize := s.batchSize }

/-- The events of handling one message (subscriber.go lines 216-219): the
handler is invoked, and a handler error is logged without propagating. -/
def handleEvents (worker : String) (handler : Handler) (m : Message) :
    List Event :=
  match handler m with
  | some _ => [Event.handleCall worker m, Event.handlerErrLog worker m.sequence]
  | none => [Event.handleCall worker m]

/-- The message loop of `processNotification` (subscriber.go lines 201-220):
`Recv` until `io.EOF` (success) or another error (abort with
`fetch error: ...`); each received message is counted and handed to the
handler via `handleEvents`.  Returns the trace, the final `messageCount` and
the loop's outcome. -/
def fetchLoop (worker : String) (handler : Handler) :
    List (Recv Message) → Nat → List Event × Nat × Except String Unit
  | [], count => ([], count, Except.ok ())
  | Recv.eof :: _, count => ([], count, Except.ok ())
  | Recv.err e :: _, count => ([], count, Except.error (("fetch error: ") ++ e))
  | Recv.item m :: rest, count =>
    let r := fetchLoop worker handler rest (count + 1)
    (handleEvents worker handler m ++ r.1, r.2)

/-- `MultiSubject.processNotification` (subscriber.go lines 188-224): build
the fetch config from the notification, call `client.Fetch` (the `k`-th fetch
call of this worker), then run the message loop; on success the processed
count is logged. -/
def processNotification (s : MultiSubject) (k : Nat) (worker : String)
    (n : Notification) (handler : Handler) :
    List Event × Except String Unit :=
  let config := fetchConfig s n
  match s.client.fetch k config with
  | Except.error e =>
    ([Event.fetchCall worker config], Except.error (("failed to fetch: ") ++ e))
  | Except.ok stream =>
    match fetchLoop worker handler stream 0 with
    | (evs, count, Except.ok _) =>
      (Event.fetchCall worker config :: evs ++ [Event.processedLog worker count],
        Except.ok ())
    | (evs, _, Except.error e) =>
      (Event.fetchCall worker config :: evs, Except.error e)

/-- The receiver goroutine of `subscribeToSubject` (subscriber.go lines
140-164): relay notifications into the channel until `io.EOF` or an error
closes the stream (either way the channel is closed and the loop below
drains what was relayed). -/
def relayLoop : List (Recv Notification) → List Notification
  | [] => []
  | Recv.eof :: _ => []
  | Recv.err _ :: _ => []
  | Recv.item n :: rest => n :: relayLoop rest

/-- The dispatch loop of `subscribeToSubject` (subscriber.go lines 168-184):
process each queued notification in arrival order; a `processNotification`
error is logged and the loop continues with the next notification.  `k`
numbers the worker's fetch calls. -/
def notificationLoop (s : MultiSubject) (worker : String) (handler : Handler) :
    Nat → List Notification → List Event
  | _, [] => []
  | k, n :: rest =>
    match processNotification s k worker n handler with
    | (evs, Except.ok _) => evs ++ notificationLoop s worker handler (k + 1) rest
    | (evs, Except.error e) =>
      evs ++ Event.procErrLog worker e :: notificationLoop s worker handler (k + 1) rest

/-- `MultiSubject.subscribeToSubject` (subscriber.go lines 118-185): open the
notification stream with `subConfig`; a failure to subscribe is logged and
the worker exits; otherwise the relayed notifications are dispatched. -/
def subscribeToSubject (s : MultiSubject) (subject : String) (handler : Handler) :
    List Event :=
  let config := subConfig s subject
  match s.client.subscribe config with
  | Except.error _ => [Event.subscribeCall subject config, Event.subscribeFailLog subject]
  | Except.ok stream =>
    Event.subscribeCall subject config ::
      notificationLoop s subject handler 0 (relayLoop stream)

/-- `MultiSubject.Start` (subscriber.go lines 98-115): with an empty registry
return the error and leave the state untouched; otherwise, for each registered
subject, `wg.Add(1)` and spawn the worker goroutine, then return nil at once
(the subscriptions are established inside the goroutines, not here).  Returns
the new state, the trace of the call itself and the returned error. -/
def Start (s : MultiSubject) : MultiSubject × List Event × Option String :=
  if s.handlers.length = 0 then
    (s, [], some ("no handlers registered"))
  else
    ({ s with
        workers := s.workers ++ s.handlers.map Prod.fst
        wgCount := s.wgCount + s.handlers.length },
      s.handlers.map (fun p => Event.spawn p.1),
      none)

/-- `MultiSubject.Stop` (subscriber.go lines 227-235): cancel the shared
context, wait for the workers (a pure state model: the join changes no
state), then call `client.Close()` — once per `Stop` call. -/
def Stop (s : MultiSubject) : MultiSubject :=
  { s with cancelled := true, closeCount := s.closeCount + 1 }

/-- A trace of the system running two workers concurrently: any interleaving
of the two workers' own traces. -/
inductive Interleave : List Event → List Event → List Event → Prop
  | nil : Interleave [] [] []
  | left {e : Event} {xs ys zs : List Event} :
      Interleave xs ys zs → Interleave (e :: xs) ys (e :: zs)
  | right {e : Event} {xs ys zs : List Event} :
      Interleave xs ys zs → Interleave xs (e :: ys) (e :: zs)

/-! ## What the claims state, as predicates over the embedding -/

/-- What `Start` does on a non-empty registry: no error, one spawn event per
registered subject (in registry order, so exactly N of them and none for an
unregistered subject), one worker handle and one wait-group increment per
spawn, and no subscription established during the call itself. -/
def startSpec (s : MultiSubject) : Prop :=
  (Start s).2.2 = none ∧
  (Start s).2.1 = s.handlers.map (fun p => Event.spawn p.1) ∧
  (Start s).2.1.length = s.handlers.length ∧
  (Start s).1.workers = s.workers ++ s.handlers.map Prod.fst ∧
  (Start s).1.wgCount = s.wgCount + s.handlers.length ∧
  (∀ subject, Event.spawn subject ∈ (Start s).2.1 ↔ subject ∈ s.handlers.map Prod.fst) ∧
  ∀ w config, Event.subscribeCall w config ∉ (Start s).2.1

/-- What the amended C3 states after `n` calls to `Stop`: `n` further
`Close()` calls on the client, and the shared context cancelled. -/
def stopSpec (s : MultiSubject) (n : Nat) : Prop :=
  (Stop^[n] s).closeCount = s.closeCount + n ∧ (Stop^[n] s).cancelled = true

/-- What one fetch cycle does when the stream yields `ms` and then `io.EOF`,
given that the handler fails on the member `m`: every message of the batch is
still handed to the handler, in order; the failure is logged; the cycle
returns success; and the surrounding dispatch loop goes on to the remaining
notifications whatever the cycle's outcome was. -/
def handlerErrSpec (worker : String) (handler : Handler) (ms : List Message)
    (rest : List (Recv Message)) (m : Message) : Prop :=
  handledMessages worker (fetchLoop worker handler (ms.map Recv.item ++ Recv.eof :: rest) 0).1 = ms ∧
  (fetchLoop worker handler (ms.map Recv.item ++ Recv.eof :: rest) 0).2.2 = Except.ok () ∧
  Event.handlerErrLog worker m.sequence ∈ (fetchLoop worker handler (ms.map Recv.item ++ Recv.eof :: rest) 0).1 ∧
  ∀ (s : MultiSubject) (k : Nat) (n : Notification) (ns : List Notification),
    ∃ pre, notificationLoop s worker handler k (n :: ns) =
      pre ++ notificationLoop s worker handler (k + 1) ns

/-- What one fetch cycle does when the stream yields `ms` and then a non-EOF
error: exactly the messages before the error are handed to the handler (none
of `rest` is observed), the cycle aborts with `fetch error: ...`, and the
dispatch loop logs that error and continues with the next notification. -/
def streamErrSpec (s : MultiSubject) (k : Nat) (worker : String)
    (n : Notification) (handler : Handler) (ms : List Message) (e : String) : Prop :=
  handledMessages worker (processNotification s k worker n handler).1 = ms ∧
  (processNotification s k worker n handler).2 = Except.error (("fetch error: ") ++ e) ∧
  ∀ ns, notificationLoop s worker handler k (n :: ns) =
    (processNotification s k worker n handler).1 ++
      Event.procErrLog worker (("fetch error: ") ++ e) ::
        notificationLoop s worker handler (k + 1) ns

/-- What the amended C7 states: the config handed to `Fetch` is built from
the notification's subject and the worker's durable name and batch size, with
no start sequence; it coincides with the worker's subscription config exactly
when the notification carries the worker's subject. -/
def fetchConfigSpec (s : MultiSubject) (k : Nat) (worker : String)
    (n : Notification) (handler : Handler) : Prop :=
  (processNotification s k worker n handler).1.head? =
    some (Event.fetchCall worker (fetchConfig s n)) ∧
  fetchConfig s n =
    { subject := n.subject
      durableName := (subConfig s worker).durableName
      startSequence := none
      batchSize := (subConfig s worker).batchSize } ∧
  ((fetchConfig s n = subConfig s worker) ↔ n.subject = worker)

/-- What `New` does on a non-positive batch size: success, and batch size 10
in the state and in every subscription or fetch config derived from it. -/
def newDefaultSpec (cfg : Config) : Prop :=
  ∃ s, New (some cfg) = Except.ok s ∧ s.batchSize = 10 ∧
    (∀ subject, (subConfig s subject).batchSize = 10) ∧
    ∀ n, (fetchConfig s n).batchSize = 10

/-! ## Concrete inputs used by the witnesses and counterexamples -/

/-- A handler that always succeeds. -/
def noopHandler : Handler := fun _ => none

/-- A handler that rejects every message. -/
def failHandler : Handler := fun _ => some ("boom")

/-- A client whose streams end immediately. -/
def trivialClient : EgressClient :=
  { subscribe := fun _ => Except.ok [Recv.eof]
    fetch := fun _ _ => Except.ok [Recv.eof] }

/-- A subscriber with an empty registry. -/
def sampleSub0 : MultiSubject :=
  { client := trivialClient
    durableName := "dur"
    batchSize := 10
    handlers := []
    cancelled := false
    workers := []
    wgCount := 0
    closeCount := 0 }

/-- A subscriber with handlers registered for subjects `a` and `b`. -/
def sampleSub2 : MultiSubject :=
  { sampleSub0 with handlers := [("a", noopHandler), ("b", noopHandler)] }

/-- Two sample messages on subject `a`. -/
def msgA1 : Message :=
  { subject := "a", sequence := 1, data := [120], headers := [], timestamp := 0 }

def msgA2 : Message :=
  { subject := "a", sequence := 2, data := [121], headers := [], timestamp := 0 }

/-- A client whose notification stream for any subject yields one
notification for subject `b`, and whose fetch streams end immediately:
exercises a worker for subject `a` processing a notification for `b`. -/
def crossClient : EgressClient :=
  { subscribe := fun _ => Except.ok [Recv.item { subject := "b", sequence := 5 }, Recv.eof]
    fetch := fun _ _ => Except.ok [Recv.eof] }

/-- A subscriber over `crossClient` with a handler for subject `a` only. -/
def crossSub : MultiSubject :=
  { sampleSub0 with
    client := crossClient
    handlers := [("a", noopHandler)] }

/-- A client whose fetch stream yields one message and then a non-EOF error. -/
def errClient : EgressClient :=
  { subscribe := fun _ => Except.ok [Recv.eof]
    fetch := fun _ _ => Except.ok [Recv.item msgA1, Recv.err ("net down")] }

/-- A subscriber over `errClient`. -/
def errSub : MultiSubject :=
  { sampleSub0 with client := errClient }

/-- A config with a non-positive batch size and a non-nil client. -/
def zeroBatchConfig : Config :=
  { client := some trivialClient, durableName := "dur", batchSize := 0 }

/-! ## Registry map lemmas -/

theorem mapLookup_mapInsert_self (l : List (String × Handler)) (subject : String)
    (handler : Handler) :
    mapLookup (mapInsert l subject handler) subject = some handler := by
  induction l with
  | nil => simp [mapInsert, mapLookup]
  | cons p rest ih =>
    obtain ⟨k, v⟩ := p
    by_cases hk : k = subject
    · simp [mapInsert, mapLookup, hk]
    · simp [mapInsert, mapLookup, hk, ih]

theorem mapLookup_mapInsert_ne (l : List (String × Handler)) (subject k : String)
    (handler : Handler) (hk : k ≠ subject) :
    mapLookup (mapInsert l subject handler) k = mapLookup l k := by
  have hks : ¬ subject = k := fun h => hk h.symm
  induction l with
  | nil => simp [mapInsert, mapLookup, hks]
  | cons p rest ih =>
    obtain ⟨k', v⟩ := p
    by_cases hk' : k' = subject
    · subst hk'
      simp [mapInsert, mapLookup, hks]
    · simp [mapInsert, mapLookup, hk', ih]

/-! ## Lifecycle claims -/

/-- Claim C1: for every registry with N ≥ 1 subjects at the moment `Start()`
is called, `Start()` succeeds and spawns exactly N workers, one per registered
subject, each paired with one wait-group increment, and its own trace opens no
subscription (the workers do that after the call returns). -/
theorem start_spawns_one_worker_per_subject (s : MultiSubject)
    (h : 1 ≤ s.handlers.length) : startSpec s := by
  have hne : ¬ s.handlers.length = 0 := by omega
  unfold startSpec
  simp [Start, if_neg hne, List.mem_map]

theorem start_spawns_one_worker_per_subject_witness : startSpec sampleSub2 :=
  start_spawns_one_worker_per_subject sampleSub2 (by decide)

/-- Claim C2: `Start()` on an empty registry returns the configuration error
`no handlers registered`, spawns no worker and leaves the state unchanged. -/
theorem start_empty_registry_errors (s : MultiSubject) (h : s.handlers = []) :
    Start s = (s, [], some ("no handlers registered")) := by
  simp [Start, h]

theorem start_empty_registry_errors_witness :
    Start sampleSub0 = (sampleSub0, [], some ("no handlers registered")) :=
  start_empty_registry_errors sampleSub0 rfl

/-- Counterexample to claim C3 as stated: two calls to `Stop()` perform two
`Close()` calls on the client, not one — `Stop` calls `client.Close()`
unconditionally on every invocation. -/
theorem stop_twice_not_one_close :
    (Stop (Stop sampleSub0)).closeCount = 2 ∧
      ¬ (Stop (Stop sampleSub0)).closeCount = 1 := by
  constructor <;> decide

theorem stop_iterate_closeCount (s : MultiSubject) :
    ∀ n, (Stop^[n] s).closeCount = s.closeCount + n := by
  intro n
  induction n with
  | zero => simp
  | succ k ih =>
    rw [Function.iterate_succ_apply']
    simp only [Stop, ih]
    omega

/-- Claim C3, amended: `Stop()` may be called repeatedly and each call signals
the (idempotent) cancellation and performs exactly one `Close()` call, so n
calls result in n `Close()` calls, not one. -/
theorem stop_close_per_call (s : MultiSubject) (n : Nat) (h : 1 ≤ n) :
    stopSpec s n := by
  refine ⟨stop_iterate_closeCount s n, ?_⟩
  obtain ⟨k, rfl⟩ : ∃ k, n = k + 1 := ⟨n - 1, by omega⟩
  rw [Function.iterate_succ_apply']
  rfl

theorem stop_close_per_call_witness : stopSpec sampleSub0 2 :=
  stop_close_per_call sampleSub0 2 (by norm_num)

/-- Claim C8: `RegisterHandler` called on the state `Start()` produced still
inserts or replaces the registry entry for that subject (and touches no other
entry), but the worker handles and the wait-group count remain exactly those
of the moment `Start()` was called. -/
theorem register_after_start_no_new_worker (s : MultiSubject) (subject : String)
    (handler : Handler) :
    mapLookup (RegisterHandler (Start s).1 subject handler).handlers subject = some handler ∧
    (∀ k, k ≠ subject →
      mapLookup (RegisterHandler (Start s).1 subject handler).handlers k =
        mapLookup (Start s).1.handlers k) ∧
    (RegisterHandler (Start s).1 subject handler).workers = (Start s).1.workers ∧
    (RegisterHandler (Start s).1 subject handler).wgCount = (Start s).1.wgCount ∧
    (1 ≤ s.handlers.length →
      (RegisterHandler (Start s).1 subject handler).workers =
        s.workers ++ s.handlers.map Prod.fst) := by
  refine ⟨mapLookup_mapInsert_self _ _ _,
    fun k hk => mapLookup_mapInsert_ne _ _ _ _ hk, rfl, rfl, fun h => ?_⟩
  have hne : ¬ s.handlers.length = 0 := by omega
  simp [RegisterHandler, Start, if_neg hne]

/-- Claim C10: `New` on a config with a non-nil client and a non-positive
batch size succeeds and substitutes batch size 10, which every subscription
and fetch config built by the subscriber then carries. -/
theorem new_defaults_batch_size (cfg : Config) (client : EgressClient)
    (hc : cfg.client = some client) (hb : cfg.batchSize ≤ 0) :
    newDefaultSpec cfg := by
  refine ⟨
    { client := client
      durableName := cfg.durableName
      batchSize := 10
      handlers := []
      cancelled := false
      workers := []
      wgCount := 0
      closeCount := 0 }, ?_, rfl, fun _ => rfl, fun _ => rfl⟩
  simp [New, hc, if_pos hb]

theorem new_defaults_batch_size_witness : newDefaultSpec zeroBatchConfig :=
  new_defaults_batch_size zeroBatchConfig trivialClient rfl (by decide)

/-! ## Fetch-cycle lemmas -/

theorem handledMessages_append (w : String) (xs ys : List Event) :
    handledMessages w (xs ++ ys) = handledMessages w xs ++ handledMessages w ys := by
  simp [handledMessages, List.filterMap_append]

theorem handledMessages_handleEvents (w : String) (h : Handler) (m : Message) :
    handledMessages w (handleEvents w h m) = [m] := by
  cases hm : h m <;> simp [handleEvents, hm, handledMessages]

theorem handledMessages_join (w : String) (h : Handler) (ms : List Message) :
    handledMessages w ((ms.map (handleEvents w h)).flatten) = ms := by
  induction ms with
  | nil => simp [handledMessages]
  | cons m ms ih => simp [handledMessages_append, handledMessages_handleEvents, ih]

/-- Running the message loop over a stream that yields `ms` first: every
message of `ms` is handled (its events in order), and the loop then continues
on the remainder with the count advanced. -/
theorem fetchLoop_items (w : String) (h : Handler) (ms : List Message)
    (tail : List (Recv Message)) (c : Nat) :
    fetchLoop w h (ms.map Recv.item ++ tail) c =
      ((ms.map (handleEvents w h)).flatten ++ (fetchLoop w h tail (c + ms.length)).1,
        (fetchLoop w h tail (c + ms.length)).2) := by
  induction ms generalizing c with
  | nil => simp
  | cons m ms ih =>
    have hc : c + 1 + ms.length = c + (ms.length + 1) := by omega
    simp [fetchLoop, ih (c + 1), hc, List.append_assoc]

/-! ## Fetch-and-dispatch cycle claims -/

/-- Claim C5: within one fetch cycle, every message the source yields before
end-of-stream is handed to the handler exactly once, in the order yielded
(the handled messages are exactly `ms`), the cycle ends with success on
end-of-stream, and the logged count is the number of messages. -/
theorem messages_delivered_in_order (worker : String) (handler : Handler)
    (ms : List Message) (rest : List (Recv Message)) :
    handledMessages worker
        (fetchLoop worker handler (ms.map Recv.item ++ Recv.eof :: rest) 0).1 = ms ∧
    (fetchLoop worker handler (ms.map Recv.item ++ Recv.eof :: rest) 0).2.2 =
      Except.ok () ∧
    (fetchLoop worker handler (ms.map Recv.item ++ Recv.eof :: rest) 0).2.1 =
      ms.length := by
  rw [fetchLoop_items]
  refine ⟨?_, rfl, by simp [fetchLoop]⟩
  simp only [fetchLoop, List.append_nil]
  exact handledMessages_join worker handler ms

/-- Claim C4: a handler error on a message of the batch is logged, every
message of the batch is still handed to the handler in order, the cycle still
returns success, and the dispatch loop goes on to the next notification. -/
theorem handler_error_continues_batch (worker : String) (handler : Handler)
    (ms : List Message) (rest : List (Recv Message)) (m : Message)
    (hm : m ∈ ms) (he : (handler m).isSome) :
    handlerErrSpec worker handler ms rest m := by
  unfold handlerErrSpec
  rw [fetchLoop_items]
  refine ⟨?_, rfl, ?_, ?_⟩
  · simp only [fetchLoop, List.append_nil]
    exact handledMessages_join worker handler ms
  · obtain ⟨e, he'⟩ := Option.isSome_iff_exists.mp he
    have hmem : Event.handlerErrLog worker m.sequence ∈ handleEvents worker handler m := by
      simp [handleEvents, he']
    exact List.mem_append_left _
      (List.mem_flatten.mpr ⟨_, List.mem_map_of_mem _ hm, hmem⟩)
  · intro s k n ns
    rcases hp : processNotification s k worker n handler with ⟨evs, res⟩
    cases res with
    | ok u =>
      exact ⟨evs, by simp [notificationLoop, hp]⟩
    | error e =>
      exact ⟨evs ++ [Event.procErrLog worker e], by simp [notificationLoop, hp]⟩

theorem handler_error_continues_batch_witness :
    handlerErrSpec "a" failHandler [msgA1, msgA2] [] msgA1 :=
  handler_error_continues_batch "a" failHandler [msgA1, msgA2] [] msgA1
    (by decide) (by decide)

/-- Claim C6: a non-EOF stream error aborts the remainder of the fetch cycle
(only the messages before the error were handled, nothing after it), the
error is returned as `fetch error: ...`, and the dispatch loop logs it and
continues with the next notification instead of exiting. -/
theorem stream_error_aborts_cycle (s : MultiSubject) (k : Nat) (worker : String)
    (n : Notification) (handler : Handler) (ms : List Message) (e : String)
    (rest : List (Recv Message))
    (hf : s.client.fetch k (fetchConfig s n) =
      Except.ok (ms.map Recv.item ++ Recv.err e :: rest)) :
    streamErrSpec s k worker n handler ms e := by
  have hp : processNotification s k worker n handler =
      (Event.fetchCall worker (fetchConfig s n) ::
          (ms.map (handleEvents worker handler)).flatten,
        Except.error (("fetch error: ") ++ e)) := by
    simp only [processNotification, hf]
    rw [fetchLoop_items]
    simp [fetchLoop]
  unfold streamErrSpec
  rw [hp]
  refine ⟨?_, rfl, ?_⟩
  · simp only [handledMessages, List.filterMap_cons]
    exact handledMessages_join worker handler ms
  · intro ns
    simp [notificationLoop, hp]

theorem stream_error_aborts_cycle_witness :
    streamErrSpec errSub 0 "a" { subject := "a", sequence := 1 } noopHandler
      [msgA1] ("net down") :=
  stream_error_aborts_cycle errSub 0 "a" { subject := "a", sequence := 1 }
    noopHandler [msgA1] ("net down") [] rfl

/-- Counterexample to claim C7 as stated: the worker for subject `a`
processing the notification `(b, 5)` passes to `Fetch` a configuration whose
subject is the notification's `b`, different from the `a` of the worker's
subscription configuration. -/
theorem fetch_config_mismatch_counterexample :
    Event.fetchCall "a" (fetchConfig crossSub { subject := "b", sequence := 5 }) ∈
      subscribeToSubject crossSub "a" noopHandler ∧
    fetchConfig crossSub { subject := "b", sequence := 5 } ≠ subConfig crossSub "a" := by
  constructor <;> decide

/-- Claim C7, amended: the fetch configuration carries the notification's
subject together with the worker's durable name and batch size, its optional
start-sequence is absent (the notification's sequence is not threaded into
the fetch request), and it equals the worker's subscription configuration
exactly when the notification's subject is the worker's subject. -/
theorem fetch_config_from_notification (s : MultiSubject) (k : Nat)
    (worker : String) (n : Notification) (handler : Handler) :
    fetchConfigSpec s k worker n handler := by
  unfold fetchConfigSpec
  refine ⟨?_, rfl, ?_⟩
  · simp only [processNotification]
    cases hfe : s.client.fetch k (fetchConfig s n) with
    | error err => rfl
    | ok stream =>
      rcases hfl : fetchLoop worker handler stream 0 with ⟨evs, count, res⟩
      cases res <;> simp [hfl]
  · constructor
    · intro hEq
      have := congrArg SubscriptionConfig.subject hEq
      simpa [fetchConfig, subConfig] using this
    · intro hsubj
      simp [fetchConfig, subConfig, hsubj]

/-! ## Per-worker trace lemmas and the interleaving semantics -/

theorem worker_handleEvents (w : String) (h : Handler) (m : Message) (e : Event)
    (he : e ∈ handleEvents w h m) : e.worker = w := by
  unfold handleEvents at he
  cases hm : h m <;> rw [hm] at he <;> simp at he
  · subst he; rfl
  · rcases he with rfl | rfl <;> rfl

theorem worker_fetchLoop (w : String) (h : Handler) :
    ∀ (stream : List (Recv Message)) (c : Nat) (e : Event),
      e ∈ (fetchLoop w h stream c).1 → e.worker = w := by
  intro stream
  induction stream with
  | nil => intro c e he; simp [fetchLoop] at he
  | cons it rest ih =>
    intro c e he
    cases it with
    | eof => simp [fetchLoop] at he
    | err s => simp [fetchLoop] at he
    | item m =>
      simp only [fetchLoop, List.mem_append] at he
      rcases he with he | he
      · exact worker_handleEvents w h m e he
      · exact ih (c + 1) e he

theorem worker_processNotification (s : MultiSubject) (k : Nat) (w : String)
    (n : Notification) (h : Handler) (e : Event)
    (he : e ∈ (processNotification s k w n h).1) : e.worker = w := by
  cases hfe : s.client.fetch k (fetchConfig s n) with
  | error err =>
    simp only [processNotification, hfe] at he
    simp at he
    subst he; rfl
  | ok stream =>
    simp only [processNotification, hfe] at he
    rcases hfl : fetchLoop w h stream 0 with ⟨evs, count, res⟩
    rw [hfl] at he
    have hevs : ∀ e', e' ∈ evs → e'.worker = w := by
      intro e' he'
      apply worker_fetchLoop w h stream 0 e'
      rw [hfl]
      exact he'
    cases res with
    | ok u =>
      simp at he
      rcases he with rfl | he | rfl
      · rfl
      · exact hevs e he
      · rfl
    | error err =>
      simp at he
      rcases he with rfl | he
      · rfl
      · exact hevs e he

theorem worker_notificationLoop (s : MultiSubject) (w : String) (h : Handler) :
    ∀ (notifs : List Notification) (k : Nat) (e : Event),
      e ∈ notificationLoop s w h k notifs → e.worker = w := by
  intro notifs
  induction notifs with
  | nil => intro k e he; simp [notificationLoop] at he
  | cons n rest ih =>
    intro k e he
    rcases hp : processNotification s k w n h with ⟨evs, res⟩
    have hevs : ∀ e', e' ∈ evs → e'.worker = w := by
      intro e' he'
      apply worker_processNotification s k w n h e'
      rw [hp]
      exact he'
    cases res with
    | ok u =>
      simp only [notificationLoop, hp, List.mem_append] at he
      rcases he with he | he
      · exact hevs e he
      · exact ih (k + 1) e he
    | error err =>
      simp only [notificationLoop, hp, List.mem_append, List.mem_cons] at he
      rcases he with he | rfl | he
      · exact hevs e he
      · rfl
      · exact ih (k + 1) e he

theorem worker_subscribeToSubject (s : MultiSubject) (subject : String)
    (h : Handler) (e : Event) (he : e ∈ subscribeToSubject s subject h) :
    e.worker = subject := by
  simp only [subscribeToSubject] at he
  cases hsub : s.client.subscribe (subConfig s subject) with
  | error err =>
    rw [hsub] at he
    simp at he
    rcases he with rfl | rfl <;> rfl
  | ok stream =>
    rw [hsub] at he
    simp only [List.mem_cons] at he
    rcases he with rfl | he
    · rfl
    · exact worker_notificationLoop s subject h (relayLoop stream) 0 e he

theorem Interleave.swap {xs ys zs : List Event} (h : Interleave xs ys zs) :
    Interleave ys xs zs := by
  induction h with
  | nil => exact Interleave.nil
  | left h ih => exact Interleave.right ih
  | right h ih => exact Interleave.left ih

theorem interleave_filter_left (p : Event → Bool) {xs ys zs : List Event}
    (hint : Interleave xs ys zs) :
    (∀ e ∈ xs, p e = true) → (∀ e ∈ ys, p e = false) → zs.filter p = xs := by
  induction hint with
  | nil => intro _ _; rfl
  | @left e xs' ys' zs' h ih =>
    intro hxs hys
    have hpe : p e = true := hxs e (List.mem_cons_self _ _)
    rw [List.filter_cons, if_pos (by simp [hpe])]
    rw [ih (fun e' he' => hxs e' (List.mem_cons_of_mem _ he')) hys]
  | @right e xs' ys' zs' h ih =>
    intro hxs hys
    have hpe : p e = false := hys e (List.mem_cons_self _ _)
    rw [List.filter_cons, if_neg (by simp [hpe])]
    exact ih hxs (fun e' he' => hys e' (List.mem_cons_of_mem _ he'))

theorem interleave_append (xs ys : List Event) : Interleave xs ys (xs ++ ys) := by
  induction xs with
  | nil =>
    induction ys with
    | nil => exact Interleave.nil
    | cons e ys ih => exact Interleave.right ih
  | cons e xs ih => exact Interleave.left ih

/-- Claim C9: in every concurrent execution of the workers for two distinct
subjects — any interleaving `t` of the two workers' traces, so the subjects
run fully in parallel — the events of each subject occur in `t` exactly in
the order of that worker's sequential fetch-and-dispatch loop: per subject
the handler invocations are totally ordered by the loop (never concurrent
with each other), and neither worker's trace is disturbed by the other's. -/
theorem per_subject_sequential_subjects_parallel (s : MultiSubject)
    (a b : String) (ha hb : Handler) (t : List Event) (hne : a ≠ b)
    (hint : Interleave (subscribeToSubject s a ha) (subscribeToSubject s b hb) t) :
    eventsOf a t = subscribeToSubject s a ha ∧
    eventsOf b t = subscribeToSubject s b hb := by
  constructor
  · unfold eventsOf
    apply interleave_filter_left _ hint
    · intro e he
      have hw := worker_subscribeToSubject s a ha e he
      simp [hw]
    · intro e he
      have hw := worker_subscribeToSubject s b hb e he
      rw [hw]
      exact beq_eq_false_iff_ne.mpr (Ne.symm hne)
  · unfold eventsOf
    apply interleave_filter_left _ hint.swap
    · intro e he
      have hw := worker_subscribeToSubject s b hb e he
      simp [hw]
    · intro e he
      have hw := worker_subscribeToSubject s a ha e he
      rw [hw]
      exact beq_eq_false_iff_ne.mpr hne

theorem per_subject_sequential_subjects_parallel_witness :
    eventsOf "a" (subscribeToSubject sampleSub2 "a" noopHandler ++
        subscribeToSubject sampleSub2 "b" noopHandler) =
      subscribeToSubject sampleSub2 "a" noopHandler ∧
    eventsOf "b" (subscribeToSubject sampleSub2 "a" noopHandler ++
        subscribeToSubject sampleSub2 "b" noopHandler) =
      subscribeToSubject sampleSub2 "b" noopHandler :=
  per_subject_sequential_subjects_parallel sampleSub2 "a" "b" noopHandler
    noopHandler _ (by decide) (interleave_append _ _)

end MTSC
